import Mathlib

/-!
Shallow embedding of the runtime-state and window-session orchestration
subsystem of the AutoZeroFrameAction repository (Rust), restricted to the
parts the verified claims are about:

* `src/models/state.rs` — `ProgramState`, `GameState`, `AppState` and its
  methods, and the `system_time_serde` (de)serialization of `last_updated`;
* `src/services/state_manager.rs` — `StateManager`: `start_core`,
  `stop_core`, `update_game_state`, observer notification and event
  broadcast, and the persisted-state round trip;
* `src/services/mode_manager.rs` — `ModeManager::switch_mode` and the
  `ModeConfig::validate_config` implementations;
* `src/services/window_service.rs` — the body of one iteration of
  `detection_loop` and the throttle gate of `capture_window`.

Rust `SystemTime` values are modelled as `Int` nanoseconds relative to
`UNIX_EPOCH` (negative = before the epoch).  Every call the Rust code makes
to `SystemTime::now()` becomes an explicit `Int` argument of the embedded
operation, in the order the calls occur in the source.
-/

namespace AZFA

/-- Rust `ProgramState` from `src/models/state.rs`. -/
inductive ProgramState where
  | stopped
  | starting
  | running
  | stopping
  deriving DecidableEq, Repr

/-- Rust `GameState` from `src/models/state.rs`. -/
inductive GameState where
  | notDetected
  | detected
  | inBattle
  deriving DecidableEq, Repr

/-- The `Display` impl for `ProgramState` (`src/models/state.rs`), used by
`StateManager` to build `InvalidTransition` error fields via `to_string()`. -/
def ProgramState.display : ProgramState → String
  | .stopped => "已停止"
  | .starting => "启动中"
  | .running => "运行中"
  | .stopping => "停止中"

/-- Rust `AppState` from `src/models/state.rs`; `last_updated` is a `SystemTime`
modelled as `Int` nanoseconds since the UNIX epoch. -/
structure AppState where
  program_state : ProgramState
  game_state : GameState
  last_updated : Int
  deriving DecidableEq, Repr

/-- Embeds `AppState::new` / `AppState::default` (`src/models/state.rs`): program
state `Stopped`, game state `NotDetected`, `last_updated = now`. -/
def AppState.new (now : Int) : AppState :=
  { program_state := .stopped, game_state := .notDetected, last_updated := now }

/-- Embeds `AppState::update_program_state` (`src/models/state.rs`): writes the new
program state and stamps `last_updated` with the current time. -/
def AppState.update_program_state (s : AppState) (p : ProgramState) (now : Int) : AppState :=
  { s with program_state := p, last_updated := now }

/-- Embeds `AppState::update_game_state` (`src/models/state.rs`): writes the new
game state and stamps `last_updated` with the current time. -/
def AppState.update_game_state (s : AppState) (g : GameState) (now : Int) : AppState :=
  { s with game_state := g, last_updated := now }

/-- Embeds `AppState::can_start_core` (`src/models/state.rs`):
`matches!(program_state, Stopped) && matches!(game_state, Detected | InBattle)`. -/
def AppState.can_start_core (s : AppState) : Bool :=
  (match s.program_state with | .stopped => true | _ => false) &&
  (match s.game_state with | .detected => true | .inBattle => true | _ => false)

/-- Embeds `AppState::can_stop_core` (`src/models/state.rs`):
`matches!(program_state, Running)`. -/
def AppState.can_stop_core (s : AppState) : Bool :=
  match s.program_state with | .running => true | _ => false

/-- Embeds `system_time_serde::serialize` (`src/models/state.rs`):
`time.duration_since(UNIX_EPOCH).unwrap().as_secs()`.  `duration_since`
fails (and the `unwrap` panics) exactly when the time is earlier than the
epoch; the panic is modelled as `none`.  `as_secs` truncates to whole
seconds. -/
def serializeLastUpdated (t : Int) : Option Nat :=
  if t < 0 then none else some ((t / 1000000000).toNat)

/-- Embeds `system_time_serde::deserialize` (`src/models/state.rs`):
`UNIX_EPOCH + Duration::from_secs(secs)`. -/
def deserializeLastUpdated (secs : Nat) : Int :=
  (secs : Int) * 1000000000

/-- The persisted state file of `StateManager::save_state`
(`src/services/state_manager.rs`): a JSON object with the two enum fields
and `last_updated` as u64 epoch seconds. -/
structure PersistedState where
  program_state : ProgramState
  game_state : GameState
  last_updated_secs : Nat
  deriving DecidableEq, Repr

/-- Embeds `StateManager::save_state` (`src/services/state_manager.rs`) restricted
to the serialization of the in-memory `AppState`: `serde_json::to_string`
with the custom `system_time_serde` serializer for `last_updated`.  `none`
models the panic of `duration_since(UNIX_EPOCH).unwrap()` on a pre-epoch
time. -/
def saveAppState (s : AppState) : Option PersistedState :=
  match serializeLastUpdated s.last_updated with
  | none => none
  | some secs =>
      some { program_state := s.program_state
             game_state := s.game_state
             last_updated_secs := secs }

/-- Embeds `StateManager::load_state` (`src/services/state_manager.rs`) restricted
to the deserialization of the state file: `serde_json::from_str::<AppState>`
with the custom `system_time_serde` deserializer for `last_updated`. -/
def loadAppState (p : PersistedState) : AppState :=
  { program_state := p.program_state
    game_state := p.game_state
    last_updated := deserializeLastUpdated p.last_updated_secs }

/-- Rust `StateChangeEvent` from `src/services/state_manager.rs`. -/
inductive StateChangeEvent where
  | programStateChanged (old_state new_state : ProgramState) (timestamp : Int)
  | gameStateChanged (old_state new_state : GameState) (timestamp : Int)
  deriving DecidableEq, Repr

/-- Rust `StateError` from `src/utils/error.rs` (the variants reachable from the
modelled operations; `InvalidTransition` carries the `to_string()` forms of
the two program states, as built in `StateManager::start_core` /
`stop_core`). -/
inductive StateError where
  | invalidTransition (fromState toState : String)
  | lockError
  | inconsistentState
  | persistenceError (msg : String)
  deriving DecidableEq, Repr

/-- Rust `StateManager` (`src/services/state_manager.rs`), restricted to its
observable behaviour: the guarded `AppState`, the registered observers (in
registration order, identified by index), the events published on the
broadcast channel (oldest first) and the synchronous observer callback
invocations (in invocation order). -/
structure StateManager where
  state : AppState
  observers : List Nat
  busEvents : List StateChangeEvent
  obsNotifs : List (Nat × StateChangeEvent)
  deriving DecidableEq, Repr

/-- Embeds `StateManager::new` (`src/services/state_manager.rs`) with an arbitrary
already-registered observer list: `AppState::new()`, empty event history. -/
def StateManager.init (now : Int) (observers : List Nat) : StateManager :=
  { state := AppState.new now, observers := observers, busEvents := [], obsNotifs := [] }

/-- One event emission of `StateManager`: `event_sender.send(event)` followed
by the `for observer in &self.observers` notification loop, in registration
order (`src/services/state_manager.rs`). -/
def StateManager.emit (m : StateManager) (e : StateChangeEvent) : StateManager :=
  { m with busEvents := m.busEvents ++ [e]
           obsNotifs := m.obsNotifs ++ m.observers.map (fun o => (o, e)) }

/-- Embeds `StateManager::start_core` (`src/services/state_manager.rs`).  The four
`SystemTime::now()` calls of the success path become `t1`–`t4`: the
`update_program_state(Starting)` stamp, the first event timestamp, the
`update_program_state(Running)` stamp, and the second event timestamp.  The
result pairs the returned `StateResult<()>` with the manager after the
call. -/
def StateManager.start_core (m : StateManager) (t1 t2 t3 t4 : Int) :
    Except StateError Unit × StateManager :=
  if m.state.can_start_core then
    let old := m.state.program_state
    let m1 := { m with state := m.state.update_program_state .starting t1 }
    let m2 := m1.emit (.programStateChanged old .starting t2)
    let m3 := { m2 with state := m2.state.update_program_state .running t3 }
    let m4 := m3.emit (.programStateChanged .starting .running t4)
    (Except.ok (), m4)
  else
    (Except.error (.invalidTransition m.state.program_state.display
      ProgramState.starting.display), m)

/-- Embeds `StateManager::stop_core` (`src/services/state_manager.rs`), mirroring
`start_core` through `Stopping → Stopped`. -/
def StateManager.stop_core (m : StateManager) (t1 t2 t3 t4 : Int) :
    Except StateError Unit × StateManager :=
  if m.state.can_stop_core then
    let old := m.state.program_state
    let m1 := { m with state := m.state.update_program_state .stopping t1 }
    let m2 := m1.emit (.programStateChanged old .stopping t2)
    let m3 := { m2 with state := m2.state.update_program_state .stopped t3 }
    let m4 := m3.emit (.programStateChanged .stopping .stopped t4)
    (Except.ok (), m4)
  else
    (Except.error (.invalidTransition m.state.program_state.display
      ProgramState.stopping.display), m)

/-- Embeds `StateManager::update_game_state` (`src/services/state_manager.rs`):
when the new value differs from the old one it writes it (stamping
`last_updated` with `t1`), then publishes one `GameStateChanged` event
(timestamped `t2`) and notifies the observers; otherwise it does nothing. -/
def StateManager.update_game_state (m : StateManager) (g : GameState) (t1 t2 : Int) :
    StateManager :=
  let old := m.state.game_state
  if old ≠ g then
    let m1 := { m with state := m.state.update_game_state g t1 }
    m1.emit (.gameStateChanged old g t2)
  else m

/-- The states of a `StateManager` reachable through any sequence of
`start_core`, `stop_core` and `update_game_state` calls from a freshly
constructed manager (claim C1's reachability). -/
inductive ReachableManager : StateManager → Prop where
  | init (now : Int) (obs : List Nat) : ReachableManager (StateManager.init now obs)
  | startCore (m : StateManager) (t1 t2 t3 t4 : Int) :
      ReachableManager m → ReachableManager (m.start_core t1 t2 t3 t4).2
  | stopCore (m : StateManager) (t1 t2 t3 t4 : Int) :
      ReachableManager m → ReachableManager (m.stop_core t1 t2 t3 t4).2
  | updateGameState (m : StateManager) (g : GameState) (t1 t2 : Int) :
      ReachableManager m → ReachableManager (m.update_game_state g t1 t2)

/-- The `AppState` values produced by `StateManager`'s own operations (claim
C10's reachability): a fresh `AppState::new`, the two stamping updates, and
a state loaded from a persisted u64-seconds file.  Every clock reading the
operations take is assumed to be at or after the UNIX epoch. -/
inductive ReachableAppState : AppState → Prop where
  | new (now : Int) : 0 ≤ now → ReachableAppState (AppState.new now)
  | updProg (s : AppState) (p : ProgramState) (now : Int) :
      ReachableAppState s → 0 ≤ now → ReachableAppState (s.update_program_state p now)
  | updGame (s : AppState) (g : GameState) (now : Int) :
      ReachableAppState s → 0 ≤ now → ReachableAppState (s.update_game_state g now)
  | load (p : PersistedState) : ReachableAppState (loadAppState p)

/-- Rust `OperationMode` from `src/models/config.rs`.  The constructor for the
`Macro` variant is spelled `macroMode` because `macro` is reserved in
Lean. -/
inductive OperationMode where
  | macroMode
  | intelligent
  deriving DecidableEq, Repr

/-- Rust `ModeError` from `src/utils/error.rs`. -/
inductive ModeError where
  | switchError (msg : String)
  | configError (msg : String)
  | unsupportedMode (msg : String)
  | validationError (msg : String)
  deriving DecidableEq, Repr

/-- Rust `ModeChangeEvent` from `src/services/mode_manager.rs`. -/
inductive ModeChangeEvent where
  | modeSwitch (fromMode toMode : OperationMode)
  | configUpdate (mode : OperationMode) (config_type : String)
  | hotkeyUpdate (mode : OperationMode) (operation : String)
      (old_hotkey : Option String) (new_hotkey : String)
  deriving DecidableEq, Repr

/-- Rust `MacroModeConfig` from `src/models/config.rs`, restricted to the fields
read by the modelled `ModeManager` operations.  The `hotkeys` `HashMap` is an
association list. -/
structure MacroModeConfig where
  hotkeys : List (String × String)
  deriving DecidableEq, Repr

/-- Rust `IntelligentModeConfig` from `src/models/config.rs`, restricted to the
fields read by the modelled `ModeManager` operations. -/
structure IntelligentModeConfig where
  hotkeys : List (String × String)
  intelligent_features : List String
  deriving DecidableEq, Repr

/-- The `required_keys` array checked (with warnings only) by
`MacroModeConfig::validate_config` in `src/services/mode_manager.rs`. -/
def requiredHotkeys : List String :=
  ["deploy_operator", "activate_skill", "retreat_operator"]

/-- Whether a hotkey map contains every key of `requiredHotkeys`; used to
state what the spec calls an "invalid" (incomplete) hotkey map. -/
def hasRequiredHotkeys (hotkeys : List (String × String)) : Bool :=
  requiredHotkeys.all (fun k => hotkeys.any (fun kv => kv.1 = k))

/-- Embeds `<MacroModeConfig as ModeConfig>::validate_config`
(`src/services/mode_manager.rs`): logs a warning when `hotkeys` is empty and
for each missing key of `required_keys`, but unconditionally returns
`Ok(())` — no branch of the source function produces an error. -/
def MacroModeConfig.validate_config (_ : MacroModeConfig) : Except ModeError Unit :=
  Except.ok ()

/-- Embeds `<IntelligentModeConfig as ModeConfig>::validate_config`
(`src/services/mode_manager.rs`): logs a warning when `hotkeys` or
`intelligent_features` is empty, but unconditionally returns `Ok(())`. -/
def IntelligentModeConfig.validate_config (_ : IntelligentModeConfig) :
    Except ModeError Unit :=
  Except.ok ()

/-- Rust `ModeManager` (`src/services/mode_manager.rs`), restricted to the fields
the modelled operations touch.  `Instant` values in the history are `Int`
milliseconds; `events` is the log of events published on the broadcast
channel, oldest first. -/
structure ModeManager where
  current_mode : OperationMode
  macro_config : MacroModeConfig
  intelligent_config : IntelligentModeConfig
  mode_history : List (OperationMode × Int)
  max_history : Nat
  events : List ModeChangeEvent
  deriving DecidableEq, Repr

/-- Embeds `ModeManager::add_to_history` (`src/services/mode_manager.rs`): push the
new entry, then drop the oldest entry when the history exceeds
`max_history`. -/
def ModeManager.add_to_history (mm : ModeManager) (mode : OperationMode) (now : Int) :
    ModeManager :=
  let h := mm.mode_history ++ [(mode, now)]
  { mm with mode_history := if h.length > mm.max_history then h.tail else h }

/-- Embeds `ModeManager::switch_mode` (`src/services/mode_manager.rs`): a same-mode
switch returns `Ok(())` immediately; otherwise the target configuration is
validated (the `?` operator propagating any error before any mutation), the
mode is swapped, the switch is appended to the bounded history (stamped with
the `Instant::now()` argument `now`), and one `ModeSwitch` event is sent. -/
def ModeManager.switch_mode (mm : ModeManager) (mode : OperationMode) (now : Int) :
    Except ModeError Unit × ModeManager :=
  if mm.current_mode = mode then
    (Except.ok (), mm)
  else
    let validation : Except ModeError Unit :=
      match mode with
      | .macroMode => mm.macro_config.validate_config
      | .intelligent => mm.intelligent_config.validate_config
    match validation with
    | .error e => (Except.error e, mm)
    | .ok () =>
        let old := mm.current_mode
        let mm1 := { mm with current_mode := mode }
        let mm2 := mm1.add_to_history mode now
        let mm3 := { mm2 with events := mm2.events ++ [.modeSwitch old mode] }
        (Except.ok (), mm3)

/-- Rust `WindowInfo` from `src/models/window.rs`; the opaque platform handle is
modelled as `Nat`. -/
structure WindowInfo where
  handle : Nat
  position : Int × Int
  size : Nat × Nat
  title : String
  process_id : Nat
  is_visible : Bool
  is_foreground : Bool
  deriving DecidableEq, Repr

/-- Rust `WindowError` from `src/utils/error.rs`. -/
inductive WindowError where
  | windowNotFound
  | accessDenied
  | captureError (msg : String)
  | infoError (msg : String)
  | coordinateError
  | invalidHandle
  | windowClosed
  | systemApiError (msg : String)
  deriving DecidableEq, Repr

/-- Rust `WindowEvent` from `src/services/window_service.rs`. -/
inductive WindowEvent where
  | windowFound (info : WindowInfo)
  | windowLost
  | windowUpdated (info : WindowInfo)
  deriving DecidableEq, Repr

/-- The mutable state one iteration of `WindowService::detection_loop`
(`src/services/window_service.rs`) works on: the loop-local `last_window`
and the shared `target_window` session guard. -/
structure PollState where
  last_window : Option WindowInfo
  target_window : Option WindowInfo
  deriving DecidableEq, Repr

/-- The `window_changed` comparison of `detection_loop`
(`src/services/window_service.rs`): handle, position or size differ from the
previously tracked window; a first detection always counts as changed. -/
def windowChanged (last : Option WindowInfo) (w : WindowInfo) : Bool :=
  match last with
  | some l => l.handle != w.handle || l.position != w.position || l.size != w.size
  | none => true

/-- The body of one iteration of `WindowService::detection_loop`
(`src/services/window_service.rs`) as a function of the previous poll state
and the result of `find_target_window`: returns the new poll state and the
list of events emitted by this iteration.  A changed match replaces the
tracked session and emits `WindowFound` (no previous session) or
`WindowUpdated` (otherwise); an identical match emits nothing; no match
after a tracked session clears it and emits `WindowLost`; an enumeration
error only logs a warning. -/
def pollStep (st : PollState) (found : Except WindowError (Option WindowInfo)) :
    PollState × List WindowEvent :=
  match found with
  | .ok (some w) =>
      if windowChanged st.last_window w then
        let e := if st.last_window.isNone then WindowEvent.windowFound w
                 else WindowEvent.windowUpdated w
        ({ last_window := some w, target_window := some w }, [e])
      else (st, [])
  | .ok none =>
      if st.last_window.isSome then
        ({ last_window := none, target_window := none }, [WindowEvent.windowLost])
      else (st, [])
  | .error _ => (st, [])

/-- Delivery of the events emitted by one poll iteration: each event goes
through the event channel (`sender.send`) and then to every registered
callback in registration order (`src/services/window_service.rs`); callbacks
are identified by their registration index. -/
def deliverPollEvents (callbacks : List Nat) (events : List WindowEvent) :
    List WindowEvent × List (Nat × WindowEvent) :=
  (events, events.flatMap (fun e => callbacks.map (fun c => (c, e))))

/-- The state `WindowService::capture_window` reads and writes
(`src/services/window_service.rs`): the throttle clock `last_capture_time`
(`Instant` as `Int` milliseconds) and the tracked `target_window`. -/
structure CaptureState where
  last_capture_time : Option Int
  target_window : Option WindowInfo
  deriving DecidableEq, Repr

/-- The outcome of `WindowService::capture_window`: either the call proceeds
to acquire a fresh bitmap of the tracked window via
`capture_window_internal` (whose OS-level bitmap operations are outside this
embedding), or it fails with a `WindowError`. -/
inductive CaptureOutcome where
  | acquire (w : WindowInfo)
  | failure (e : WindowError)
  deriving DecidableEq, Repr

/-- Embeds `WindowService::capture_window` (`src/services/window_service.rs`): if
less than 50 ms elapsed since the last call that passed the throttle gate,
return `CaptureError` immediately (without touching the throttle clock);
otherwise stamp the throttle clock, fail with `WindowNotFound` when no
window is tracked, and otherwise acquire a fresh bitmap of the tracked
window.  There is no result cache in the source. -/
def capture_window (cs : CaptureState) (now : Int) : CaptureOutcome × CaptureState :=
  match cs.last_capture_time with
  | some last =>
      if now - last < 50 then
        (CaptureOutcome.failure (.captureError "截图频率过高，请稍后重试"), cs)
      else
        let cs1 := { cs with last_capture_time := some now }
        match cs1.target_window with
        | none => (CaptureOutcome.failure .windowNotFound, cs1)
        | some w => (CaptureOutcome.acquire w, cs1)
  | none =>
      let cs1 := { cs with last_capture_time := some now }
      match cs1.target_window with
      | none => (CaptureOutcome.failure .windowNotFound, cs1)
      | some w => (CaptureOutcome.acquire w, cs1)

/-- A `WindowInfo` value used to instantiate the window-tracker theorems. -/
def sampleWindow : WindowInfo :=
  { handle := 7, position := (100, 100), size := (800, 600),
    title := "明日方舟", process_id := 1234, is_visible := true, is_foreground := false }

/-- Value `sampleWindow` after a position change (same handle and size). -/
def sampleWindowMoved : WindowInfo :=
  { sampleWindow with position := (120, 90) }

/-- Helper: every `AppState` produced by `StateManager`'s own operations with
clock readings at or after the UNIX epoch has a `last_updated` at or after
the epoch. -/
theorem reachableAppState_last_updated_nonneg (s : AppState) (h : ReachableAppState s) :
    0 ≤ s.last_updated := by
  induction h with
  | new now hnow => exact hnow
  | updProg s p now _ hnow _ => exact hnow
  | updGame s g now _ hnow _ => exact hnow
  | load p =>
      simp only [loadAppState, deserializeLastUpdated]
      positivity

/-- Claim C1: for every `StateManager` reachable through any sequence of
`start_core`, `stop_core` and `update_game_state` calls, `can_start_core`
holds exactly when the program state is `Stopped` and the game state is
`Detected` or `InBattle`, and `can_stop_core` holds exactly when the program
state is `Running`. -/
theorem claim1_can_start_stop_core_iff (m : StateManager) (hm : ReachableManager m) :
    (m.state.can_start_core = true ↔
      (m.state.program_state = .stopped ∧
        (m.state.game_state = .detected ∨ m.state.game_state = .inBattle))) ∧
    (m.state.can_stop_core = true ↔ m.state.program_state = .running) := by
  obtain ⟨⟨p, g, t⟩, obs, bus, notifs⟩ := m
  cases p <;> cases g <;>
    simp [AppState.can_start_core, AppState.can_stop_core]

/-- Witness for claim C1 at the concrete reachable manager obtained by
reporting `Detected` to a fresh manager. -/
theorem claim1_witness :
    (((StateManager.init 0 []).update_game_state .detected 1 2).state.can_start_core = true ↔
      ((((StateManager.init 0 []).update_game_state .detected 1 2).state.program_state
          = .stopped) ∧
        ((((StateManager.init 0 []).update_game_state .detected 1 2).state.game_state
            = .detected) ∨
          (((StateManager.init 0 []).update_game_state .detected 1 2).state.game_state
            = .inBattle)))) ∧
    (((StateManager.init 0 []).update_game_state .detected 1 2).state.can_stop_core = true ↔
      ((StateManager.init 0 []).update_game_state .detected 1 2).state.program_state
        = .running) :=
  claim1_can_start_stop_core_iff _
    (ReachableManager.updateGameState _ _ _ _ (ReachableManager.init 0 []))

/-- Claim C2: `start_core` called while `can_start_core` is false, and
`stop_core` called while `can_stop_core` is false, return the typed
`InvalidTransition` error carrying the displayed source and target program
states, and leave the whole manager unchanged (no field of the state
mutated, no event published, no observer notified). -/
theorem claim2_invalid_transition_unchanged (m : StateManager) (t1 t2 t3 t4 : Int) :
    (m.state.can_start_core = false →
      m.start_core t1 t2 t3 t4 =
        (Except.error (.invalidTransition m.state.program_state.display
          ProgramState.starting.display), m)) ∧
    (m.state.can_stop_core = false →
      m.stop_core t1 t2 t3 t4 =
        (Except.error (.invalidTransition m.state.program_state.display
          ProgramState.stopping.display), m)) := by
  constructor
  · intro h
    simp [StateManager.start_core, h]
  · intro h
    simp [StateManager.stop_core, h]

/-- Witness for claim C2 at a fresh manager (game not detected, program
stopped), where both predicates are false. -/
theorem claim2_witness :
    ((StateManager.init 0 []).start_core 1 2 3 4 =
      (Except.error (.invalidTransition "已停止" "启动中"), StateManager.init 0 [])) ∧
    ((StateManager.init 0 []).stop_core 1 2 3 4 =
      (Except.error (.invalidTransition "已停止" "停止中"), StateManager.init 0 [])) :=
  ⟨(claim2_invalid_transition_unchanged (StateManager.init 0 []) 1 2 3 4).1 (by decide),
   (claim2_invalid_transition_unchanged (StateManager.init 0 []) 1 2 3 4).2 (by decide)⟩

/-- Claim C3: a successful `start_core` call publishes exactly two
`ProgramStateChanged` events, `Stopped→Starting` then `Starting→Running`,
each appended to the broadcast bus and delivered to every registered
observer in registration order, and nothing else; the program state ends at
`Running`. -/
theorem claim3_start_core_two_events (m : StateManager) (t1 t2 t3 t4 : Int)
    (h : m.state.can_start_core = true) :
    m.start_core t1 t2 t3 t4 =
      (Except.ok (),
        { state := { program_state := .running, game_state := m.state.game_state,
                     last_updated := t3 }
          observers := m.observers
          busEvents := m.busEvents ++
            [.programStateChanged .stopped .starting t2,
             .programStateChanged .starting .running t4]
          obsNotifs := m.obsNotifs ++
            (m.observers.map (fun o => (o, .programStateChanged .stopped .starting t2)) ++
             m.observers.map (fun o => (o, .programStateChanged .starting .running t4))) }) := by
  obtain ⟨⟨p, g, t⟩, obs, bus, notifs⟩ := m
  have hp : p = .stopped := by
    cases p <;> simp_all [AppState.can_start_core]
  subst hp
  simp only [AppState.can_start_core, Bool.and_eq_true] at h
  simp [StateManager.start_core, StateManager.emit, AppState.can_start_core,
    AppState.update_program_state, h.1, h.2]

/-- Witness for claim C3 at a concrete manager with two observers and the
game detected. -/
theorem claim3_witness :
    ((StateManager.init 0 [0, 1]).update_game_state .detected 1 2).start_core 3 4 5 6 =
      (Except.ok (),
        { state := { program_state := .running,
                     game_state := ((StateManager.init 0 [0, 1]).update_game_state
                       .detected 1 2).state.game_state,
                     last_updated := 5 }
          observers := ((StateManager.init 0 [0, 1]).update_game_state .detected 1 2).observers
          busEvents := ((StateManager.init 0 [0, 1]).update_game_state .detected 1 2).busEvents
            ++ [.programStateChanged .stopped .starting 4,
                .programStateChanged .starting .running 6]
          obsNotifs := ((StateManager.init 0 [0, 1]).update_game_state .detected 1 2).obsNotifs
            ++ ((((StateManager.init 0 [0, 1]).update_game_state .detected 1 2).observers.map
                  (fun o => (o, .programStateChanged .stopped .starting 4))) ++
                (((StateManager.init 0 [0, 1]).update_game_state .detected 1 2).observers.map
                  (fun o => (o, .programStateChanged .starting .running 6)))) }) :=
  claim3_start_core_two_events _ 3 4 5 6 (by decide)

/-- Claim C4: `update_game_state` with the current value is a complete
no-op — no event is published, no observer notified, and no field of the
state (including `last_updated`) changes; with a different value exactly one
`GameStateChanged` event is published and delivered to every observer, and
`last_updated` is stamped. -/
theorem claim4_update_game_state (m : StateManager) (g : GameState) (t1 t2 : Int) :
    (g = m.state.game_state → m.update_game_state g t1 t2 = m) ∧
    (g ≠ m.state.game_state →
      m.update_game_state g t1 t2 =
        { state := { program_state := m.state.program_state, game_state := g,
                     last_updated := t1 }
          observers := m.observers
          busEvents := m.busEvents ++ [.gameStateChanged m.state.game_state g t2]
          obsNotifs := m.obsNotifs ++
            m.observers.map (fun o => (o, .gameStateChanged m.state.game_state g t2)) }) := by
  constructor
  · intro h
    simp [StateManager.update_game_state, h]
  · intro h
    have h2 : m.state.game_state ≠ g := fun hn => h hn.symm
    simp [StateManager.update_game_state, StateManager.emit, AppState.update_game_state, h2]

/-- Witness for claim C4: the no-op branch and the event branch at a fresh
manager with one observer. -/
theorem claim4_witness :
    ((StateManager.init 0 [0]).update_game_state .notDetected 1 2 = StateManager.init 0 [0]) ∧
    ((StateManager.init 0 [0]).update_game_state .detected 1 2 =
      { state := { program_state := (StateManager.init 0 [0]).state.program_state,
                   game_state := .detected, last_updated := 1 }
        observers := (StateManager.init 0 [0]).observers
        busEvents := (StateManager.init 0 [0]).busEvents ++
          [.gameStateChanged (StateManager.init 0 [0]).state.game_state .detected 2]
        obsNotifs := (StateManager.init 0 [0]).obsNotifs ++
          (StateManager.init 0 [0]).observers.map
            (fun o => (o, .gameStateChanged (StateManager.init 0 [0]).state.game_state
              .detected 2)) }) :=
  ⟨(claim4_update_game_state (StateManager.init 0 [0]) .notDetected 1 2).1 (by decide),
   (claim4_update_game_state (StateManager.init 0 [0]) .detected 1 2).2 (by decide)⟩

/-- Counterexample to claim C5: the reachable state created at 1.5 s after
the epoch does not survive the save/load round trip — serialization writes
whole epoch seconds, so the reloaded `last_updated` is 1 s, not 1.5 s, and
the reloaded `AppState` is not equal to the original. -/
theorem claim5_counterexample :
    ReachableAppState (AppState.new 1500000000) ∧
    (saveAppState (AppState.new 1500000000)).map loadAppState ≠
      some (AppState.new 1500000000) :=
  ⟨ReachableAppState.new 1500000000 (by decide), by decide⟩

/-- Claim C5 (amended): for every reachable `AppState`, `save_state` followed
by `load_state` yields the state with `program_state` and `game_state`
preserved and `last_updated` truncated to whole epoch seconds; the round
trip is the identity exactly on states whose `last_updated` is a whole
number of seconds. -/
theorem claim5_roundtrip_truncates (s : AppState) (hs : ReachableAppState s) :
    (saveAppState s).map loadAppState =
      some { program_state := s.program_state, game_state := s.game_state,
             last_updated := s.last_updated / 1000000000 * 1000000000 } ∧
    (s.last_updated % 1000000000 = 0 →
      (saveAppState s).map loadAppState = some s) := by
  have h0 : 0 ≤ s.last_updated := reachableAppState_last_updated_nonneg s hs
  have hdiv : 0 ≤ s.last_updated / 1000000000 := Int.ediv_nonneg h0 (by norm_num)
  have key : (saveAppState s).map loadAppState =
      some { program_state := s.program_state, game_state := s.game_state,
             last_updated := s.last_updated / 1000000000 * 1000000000 } := by
    simp [saveAppState, serializeLastUpdated, loadAppState, deserializeLastUpdated,
      not_lt.mpr h0, Int.toNat_of_nonneg hdiv]
  refine ⟨key, fun hmod => ?_⟩
  have hcancel : s.last_updated / 1000000000 * 1000000000 = s.last_updated :=
    Int.ediv_mul_cancel (Int.dvd_of_emod_eq_zero hmod)
  rw [key, hcancel]

/-- Witness for the amended claim C5 at a state stamped exactly 2 s after
the epoch, where the round trip is the identity. -/
theorem claim5_witness :
    (saveAppState (AppState.new 2000000000)).map loadAppState =
      some (AppState.new 2000000000) :=
  (claim5_roundtrip_truncates (AppState.new 2000000000)
    (ReachableAppState.new 2000000000 (by decide))).2 (by decide)

/-- A `ModeManager` whose configurations are "invalid" in the spec's sense:
both hotkey maps are empty, so every required hotkey is missing. -/
def invalidHotkeyManager : ModeManager :=
  { current_mode := .macroMode
    macro_config := { hotkeys := [] }
    intelligent_config := { hotkeys := [], intelligent_features := [] }
    mode_history := [(.macroMode, 0)]
    max_history := 50
    events := [] }

/-- Counterexample to claim C6: switching to `Intelligent` whose hotkey map
is missing every required key does not fail — `validate_config` only logs
warnings — so `switch_mode` returns `Ok(())`, swaps the mode, appends to the
history and emits a `ModeSwitch` event. -/
theorem claim6_counterexample :
    hasRequiredHotkeys invalidHotkeyManager.intelligent_config.hotkeys = false ∧
    invalidHotkeyManager.switch_mode .intelligent 1 =
      (Except.ok (),
        { current_mode := .intelligent
          macro_config := invalidHotkeyManager.macro_config
          intelligent_config := invalidHotkeyManager.intelligent_config
          mode_history := [(.macroMode, 0), (.intelligent, 1)]
          max_history := 50
          events := [.modeSwitch .macroMode .intelligent] }) :=
  ⟨by decide, rfl⟩

/-- Claim C6 (amended): both `validate_config` implementations
unconditionally return `Ok(())` (missing required hotkeys only produce log
warnings), so `switch_mode` to any target different from the current mode
always succeeds — even with an incomplete hotkey map: it swaps
`current_mode`, appends one entry to the bounded history, and emits exactly
one `ModeSwitch` event; it never returns a validation error. -/
theorem claim6_switch_mode_always_succeeds (mm : ModeManager) (mode : OperationMode)
    (now : Int) (h : mode ≠ mm.current_mode) :
    mm.switch_mode mode now =
      (Except.ok (),
        { current_mode := mode
          macro_config := mm.macro_config
          intelligent_config := mm.intelligent_config
          mode_history :=
            if (mm.mode_history ++ [(mode, now)]).length > mm.max_history then
              (mm.mode_history ++ [(mode, now)]).tail
            else mm.mode_history ++ [(mode, now)]
          max_history := mm.max_history
          events := mm.events ++ [.modeSwitch mm.current_mode mode] }) := by
  have h2 : mm.current_mode ≠ mode := fun hn => h hn.symm
  cases mode <;>
    simp [ModeManager.switch_mode, ModeManager.add_to_history,
      MacroModeConfig.validate_config, IntelligentModeConfig.validate_config, h2]

/-- Witness for the amended claim C6 at the manager with empty hotkey
maps. -/
theorem claim6_witness :
    invalidHotkeyManager.switch_mode .intelligent 1 =
      (Except.ok (),
        { current_mode := .intelligent
          macro_config := invalidHotkeyManager.macro_config
          intelligent_config := invalidHotkeyManager.intelligent_config
          mode_history :=
            if (invalidHotkeyManager.mode_history ++ [(OperationMode.intelligent, 1)]).length >
                invalidHotkeyManager.max_history then
              (invalidHotkeyManager.mode_history ++ [(OperationMode.intelligent, 1)]).tail
            else invalidHotkeyManager.mode_history ++ [(OperationMode.intelligent, 1)]
          max_history := invalidHotkeyManager.max_history
          events := invalidHotkeyManager.events ++
            [.modeSwitch invalidHotkeyManager.current_mode .intelligent] }) :=
  claim6_switch_mode_always_succeeds invalidHotkeyManager .intelligent 1 (by decide)

/-- Claim C9: `switch_mode` with the current mode as target returns `Ok(())`
immediately and leaves the manager entirely unchanged — no validation effect,
no `ModeSwitch` event, no history entry — for every manager, including one
whose configuration is missing every required hotkey. -/
theorem claim9_same_mode_switch_noop (mm : ModeManager) (mode : OperationMode) (now : Int)
    (h : mode = mm.current_mode) :
    mm.switch_mode mode now = (Except.ok (), mm) := by
  subst h
  simp [ModeManager.switch_mode]

/-- Witness for claim C9 at the manager with empty (invalid) hotkey maps:
the same-mode switch still succeeds without any mutation. -/
theorem claim9_witness :
    invalidHotkeyManager.switch_mode .macroMode 1 = (Except.ok (), invalidHotkeyManager) :=
  claim9_same_mode_switch_noop invalidHotkeyManager .macroMode 1 (by decide)

/-- Claim C10: serializing an `AppState` panics (modelled as `none`) exactly
when `last_updated` is earlier than the UNIX epoch, and every `AppState`
produced by the manager's own operations — `new`, `update_program_state`,
`update_game_state` with clock readings at or after the epoch, or a load
from a u64-seconds file — has `last_updated` at or after the epoch, so its
serialization succeeds and the panic branch is unreachable. -/
theorem claim10_save_panics_iff_pre_epoch :
    (∀ s : AppState, saveAppState s = none ↔ s.last_updated < 0) ∧
    (∀ s : AppState, ReachableAppState s →
      0 ≤ s.last_updated ∧ (saveAppState s).isSome = true) := by
  constructor
  · intro s
    constructor
    · intro h
      by_contra hneg
      simp [saveAppState, serializeLastUpdated, hneg] at h
    · intro h
      simp [saveAppState, serializeLastUpdated, h]
  · intro s hs
    have h0 := reachableAppState_last_updated_nonneg s hs
    refine ⟨h0, ?_⟩
    simp [saveAppState, serializeLastUpdated, not_lt.mpr h0]

/-- Witness for claim C10: a pre-epoch state fails to serialize, and a
concrete reachable state is at or after the epoch and serializes. -/
theorem claim10_witness :
    (saveAppState { program_state := .stopped, game_state := .notDetected, last_updated := -1 }
      = none) ∧
    (0 ≤ (AppState.new 5).last_updated ∧ (saveAppState (AppState.new 5)).isSome = true) :=
  ⟨(claim10_save_panics_iff_pre_epoch.1 _).mpr (by decide),
   claim10_save_panics_iff_pre_epoch.2 _ (ReachableAppState.new 5 (by decide))⟩

/-- Claim C7: one iteration of the window-tracker poll, as a function of the
previous session and the enumeration result — a match with no previous
session emits exactly one `Found`; an identical match (same handle, position
and size) emits nothing; a match with the same handle but changed position
or size emits exactly one `Updated` and replaces the session; no match after
a tracked session emits exactly one `Lost` and clears the session; and each
emitted event goes through the event channel and then to every registered
callback in registration order. -/
theorem claim7_detection_loop_step (st : PollState) (w l : WindowInfo) (cbs : List Nat) :
    (st.last_window = none →
      pollStep st (.ok (some w)) =
        ({ last_window := some w, target_window := some w }, [.windowFound w])) ∧
    (st.last_window = some l → l.handle = w.handle → l.position = w.position →
      l.size = w.size → pollStep st (.ok (some w)) = (st, [])) ∧
    (st.last_window = some l → l.handle = w.handle →
      ¬(l.position = w.position ∧ l.size = w.size) →
      pollStep st (.ok (some w)) =
        ({ last_window := some w, target_window := some w }, [.windowUpdated w])) ∧
    (st.last_window = some l →
      pollStep st (.ok none) =
        ({ last_window := none, target_window := none }, [.windowLost])) ∧
    (∀ e : WindowEvent,
      deliverPollEvents cbs [e] = ([e], cbs.map (fun c => (c, e)))) := by
  refine ⟨fun h => ?_, fun h hh hp hs => ?_, fun h hh hchg => ?_, fun h => ?_, fun e => ?_⟩
  · simp [pollStep, windowChanged, h]
  · simp [pollStep, windowChanged, h, hh, hp, hs]
  · rcases not_and_or.mp hchg with hp | hs
    · simp [pollStep, windowChanged, h, hp]
    · simp [pollStep, windowChanged, h, hs]
  · simp [pollStep, h]
  · simp [deliverPollEvents]

/-- Witness for claim C7: the four poll outcomes and the delivery fan-out at
concrete windows and two callbacks. -/
theorem claim7_witness :
    (pollStep { last_window := none, target_window := none } (.ok (some sampleWindow)) =
      ({ last_window := some sampleWindow, target_window := some sampleWindow },
        [.windowFound sampleWindow])) ∧
    (pollStep { last_window := some sampleWindow, target_window := some sampleWindow }
        (.ok (some sampleWindow)) =
      ({ last_window := some sampleWindow, target_window := some sampleWindow }, [])) ∧
    (pollStep { last_window := some sampleWindow, target_window := some sampleWindow }
        (.ok (some sampleWindowMoved)) =
      ({ last_window := some sampleWindowMoved, target_window := some sampleWindowMoved },
        [.windowUpdated sampleWindowMoved])) ∧
    (pollStep { last_window := some sampleWindow, target_window := some sampleWindow }
        (.ok none) =
      ({ last_window := none, target_window := none }, [.windowLost])) ∧
    (deliverPollEvents [0, 1] [.windowLost] =
      ([.windowLost], [(0, .windowLost), (1, .windowLost)])) :=
  ⟨(claim7_detection_loop_step _ sampleWindow sampleWindow []).1 rfl,
   (claim7_detection_loop_step _ sampleWindow sampleWindow []).2.1 rfl rfl rfl rfl,
   (claim7_detection_loop_step _ sampleWindowMoved sampleWindow []).2.2.1 rfl rfl
     (by decide),
   (claim7_detection_loop_step _ sampleWindow sampleWindow []).2.2.2.1 rfl,
   (claim7_detection_loop_step { last_window := none, target_window := none }
     sampleWindow sampleWindow [0, 1]).2.2.2.2 .windowLost⟩

/-- Counterexample to claim C8: two `capture_window` calls 10 ms apart — the
first acquires a bitmap of the tracked window, and the second FAILS with
`CaptureError` (the throttle); it does not return the first call's buffer,
because the source has no capture cache. -/
theorem claim8_counterexample :
    (capture_window { last_capture_time := none, target_window := some sampleWindow } 0 =
      (CaptureOutcome.acquire sampleWindow,
        { last_capture_time := some 0, target_window := some sampleWindow })) ∧
    (capture_window { last_capture_time := some 0, target_window := some sampleWindow } 10 =
      (CaptureOutcome.failure (.captureError "截图频率过高，请稍后重试"),
        { last_capture_time := some 0, target_window := some sampleWindow })) := by
  constructor
  · rfl
  · rfl

/-- Claim C8 (amended): `capture_window` enforces a minimum inter-call
interval of 50 ms — a call within 50 ms of the last call that passed the
throttle gate returns `CaptureError` and leaves the throttle clock
untouched; past the interval (or on the first call) it stamps the clock and
acquires a fresh bitmap of the tracked window.  There is no short-lived
cache: a second call inside the interval fails instead of returning the
previous buffer. -/
theorem claim8_capture_throttle (cs : CaptureState) (now last : Int) (w : WindowInfo) :
    (cs.last_capture_time = some last → now - last < 50 →
      capture_window cs now =
        (CaptureOutcome.failure (.captureError "截图频率过高，请稍后重试"), cs)) ∧
    (cs.last_capture_time = some last → 50 ≤ now - last → cs.target_window = some w →
      capture_window cs now =
        (CaptureOutcome.acquire w, { cs with last_capture_time := some now })) ∧
    (cs.last_capture_time = none → cs.target_window = some w →
      capture_window cs now =
        (CaptureOutcome.acquire w, { cs with last_capture_time := some now })) := by
  refine ⟨fun h hlt => ?_, fun h hge hw => ?_, fun h hw => ?_⟩
  · simp [capture_window, h, hlt]
  · simp [capture_window, h, hw, not_lt.mpr hge]
  · simp [capture_window, h, hw]

/-- Witness for the amended claim C8: a throttled call at 10 ms, a permitted
call at 60 ms, and a permitted first call. -/
theorem claim8_witness :
    (capture_window { last_capture_time := some 0, target_window := some sampleWindow } 10 =
      (CaptureOutcome.failure (.captureError "截图频率过高，请稍后重试"),
        { last_capture_time := some 0, target_window := some sampleWindow })) ∧
    (capture_window { last_capture_time := some 0, target_window := some sampleWindow } 60 =
      (CaptureOutcome.acquire sampleWindow,
        { last_capture_time := some 60, target_window := some sampleWindow })) ∧
    (capture_window { last_capture_time := none, target_window := some sampleWindow } 0 =
      (CaptureOutcome.acquire sampleWindow,
        { last_capture_time := some 0, target_window := some sampleWindow })) :=
  ⟨(claim8_capture_throttle _ 10 0 sampleWindow).1 rfl (by decide),
   (claim8_capture_throttle _ 60 0 sampleWindow).2.1 rfl (by decide) rfl,
   (claim8_capture_throttle _ 0 0 sampleWindow).2.2 rfl rfl⟩

end AZFA
